import Mathlib

/-!
Verification of the sensitive-method interception middleware:
the `wallet_switchEthereumChain` handler
(`app/scripts/lib/rpc-method-middleware/handlers/switch-ethereum-chain.js`)
and `createPermissionsMethodMiddleware`
(`app/scripts/controllers/permissions/permissionsMethodMiddleware.js`).

Both handlers are shallowly embedded as pure Lean functions from a request
plus an environment of collaborator behaviours (the external collaborators
listed in the spec: getCurrentChainId, findCustomRpcBy, requestUserApproval,
getAccounts, hasPermission, ...) to a terminal outcome together with the
ordered trace of collaborator invocations the execution performs.  Awaited
collaborator calls are resolved by oracles stored in the environment, so a
single execution of the JS handler corresponds to one evaluation of the Lean
function.
-/

namespace MM

/-- Minimal model of JavaScript values, rich enough for the parameter
shapes the two handlers inspect (objects with string keys, arrays, strings,
numbers, booleans, `null` and `undefined`). -/
inductive JsVal where
  | vStr (s : String)
  | vNum (n : Int)
  | vBool (b : Bool)
  | vNull
  | vUndefined
  | vArr (elems : List JsVal)
  | vObj (fields : List (String × JsVal))
  deriving Repr, BEq

/-- JavaScript truthiness of a value. -/
def JsVal.isTruthy : JsVal → Bool
  | .vStr s => s ≠ ""
  | .vNum n => n ≠ 0
  | .vBool b => b
  | .vNull => false
  | .vUndefined => false
  | .vArr _ => true
  | .vObj _ => true

/-- Truthy and of `typeof` "object": only non-null objects and arrays pass
the source's `!req.params?.[0] || typeof req.params[0] !== 'object'` guard. -/
def JsVal.isObjectTruthy : JsVal → Bool
  | .vObj _ => true
  | .vArr _ => true
  | _ => false

/-- Property access `v[k]` for a string key with `undefined` default, as the
source uses it on a value already known to be an object. -/
def JsVal.getField : JsVal → String → JsVal
  | .vObj fields, k => (fields.find? (fun p => p.1 = k)).elim JsVal.vUndefined Prod.snd
  | _, _ => .vUndefined

/-- Own enumerable keys, as `Object.keys` (lodash `omit` builds on them);
array indices enumerate as decimal strings. -/
def JsVal.objKeys : JsVal → List String
  | .vObj fields => fields.map Prod.fst
  | .vArr elems => (List.range elems.length).map toString
  | _ => []

/-- Optional-chained index access `v?.[0]`: `undefined` on nullish values,
first element of an array (or `undefined` when empty), key "0" of an object,
first character of a non-empty string. -/
def JsVal.optIndex0 : JsVal → JsVal
  | .vNull => .vUndefined
  | .vUndefined => .vUndefined
  | .vArr [] => .vUndefined
  | .vArr (x :: _) => x
  | .vObj fields => JsVal.getField (.vObj fields) "0"
  | .vStr s => if s = "" then .vUndefined else .vStr (s.take 1)
  | _ => .vUndefined

/-- Optional-chained field access `v?.k`. -/
def JsVal.optField (v : JsVal) (k : String) : JsVal :=
  match v with
  | .vNull => .vUndefined
  | .vUndefined => .vUndefined
  | w => w.getField k

/-- Check `typeof v === 'string'`. -/
def JsVal.isStringVal : JsVal → Bool
  | .vStr _ => true
  | _ => false

/-- Thrown JavaScript exceptions this model distinguishes (the `in`
operator applied to a non-object throws a `TypeError`). -/
inductive JsException where
  | typeError (msg : String)
  deriving Repr, BEq

/-- JavaScript membership test `key in v`: defined on objects and arrays,
throws a `TypeError` on every other operand. -/
def jsIn (key : String) : JsVal → Except JsException Bool
  | .vObj fields => .ok (fields.any (fun p => p.1 = key))
  | .vArr elems => .ok ((List.range elems.length).any (fun i => toString i = key))
  | _ => .error (.typeError "Cannot use in operator to search in non-object")

/-- Error objects produced through the `eth-rpc-errors` helpers used by the
two source files, plus an uninterpreted constructor for errors propagated
verbatim from collaborators (e.g. a user rejecting the approval prompt). -/
inductive RpcError where
  | invalidParams (msg : String)
  | unrecognizedChain (code : Nat) (msg : String)
  | resourceUnavailable (msg : String)
  | internal (msg : String)
  | fromCollaborator (tag : String)
  deriving Repr, BEq

/-- Recognizer for the invalid-parameters error class. -/
def RpcError.isInvalidParams : RpcError → Bool
  | .invalidParams _ => true
  | _ => false

end MM

namespace MM

/-! ## Switch-chain handler (switch-ethereum-chain.js, src/unnamed/part_000) -/

/-- Network descriptor as constructed by `findExistingNetwork` or returned
by the custom-RPC store or the approval collaborator; optional fields model
JS properties that may be absent. -/
structure ChainDescriptor where
  chainId : String
  ticker : Option String
  nickname : Option String
  rpcPrefs : Option String
  rpcUrl : Option String
  type : Option String
  deriving Repr, BEq

/-- ASCII lower-casing of one character, modelling
`String.prototype.toLowerCase` on the ASCII range chain identifiers use. -/
def asciiLowerChar (c : Char) : Char :=
  if 'A' ≤ c ∧ c ≤ 'Z' then Char.ofNat (c.toNat + 32) else c

/-- Model of `String.prototype.toLowerCase`. -/
def jsToLowerCase (s : String) : String :=
  ⟨s.toList.map asciiLowerChar⟩

/-- Lower-case hexadecimal digit. -/
def isHexDigitChar (c : Char) : Bool :=
  c ∈ "0123456789abcdef".toList

/-- Modelled from the spec: `isPrefixedFormattedHexString` lives in
`shared/modules/network.utils`, which is not among the provided sources.
Spec 4.1: the lower-cased identifier must be "0x" followed by one or more
hex digits, with no redundant leading zero and not denoting zero itself. -/
def isPrefixedFormattedHexString (s : String) : Bool :=
  match s.toList with
  | '0' :: 'x' :: h :: t => (h :: t).all isHexDigitChar && h ≠ '0'
  | _ => false

/-- Numeric value of a hex digit. -/
def hexDigitVal (c : Char) : Nat :=
  if c = '1' then 1 else if c = '2' then 2 else if c = '3' then 3
  else if c = '4' then 4 else if c = '5' then 5 else if c = '6' then 6
  else if c = '7' then 7 else if c = '8' then 8 else if c = '9' then 9
  else if c = 'a' then 10 else if c = 'b' then 11 else if c = 'c' then 12
  else if c = 'd' then 13 else if c = 'e' then 14 else if c = 'f' then 15
  else 0

/-- Model of `parseInt(s, 16)` on a "0x"-prefixed string of hex digits. -/
def parseHexNat (s : String) : Nat :=
  (s.toList.drop 2).foldl (fun a c => a * 16 + hexDigitVal c) 0

/-- Modelled from the spec: `isSafeChainId` lives in
`shared/modules/network.utils`, which is not among the provided sources.
Spec 4.1: the numeric value must not exceed the safe-integer bound 2^53-1. -/
def isSafeChainId (n : Nat) : Bool :=
  n ≤ 2 ^ 53 - 1

/-- Association-list lookup used to model the plain-object constant maps
from `shared/constants/network`. -/
def mapLookup (m : List (String × String)) (k : String) : Option String :=
  (m.find? (fun p => p.1 = k)).map Prod.snd

/-- Membership test `k in m` on a constant map. -/
def mapMem (m : List (String × String)) (k : String) : Bool :=
  (m.find? (fun p => p.1 = k)).isSome

/-- Collaborator environment of one `switchEthereumChainHandler` execution.
The three constant maps come from `shared/constants/network` (not among the
provided sources, so they are parameters here); `requestUserApproval` is the
oracle for the single awaited approval of this request. -/
structure SwitchEnv where
  CHAIN_ID_TO_TYPE_MAP : List (String × String)
  NETWORK_TO_NAME_MAP : List (String × String)
  CHAIN_ID_TO_RPC_URL_MAP : List (String × String)
  getCurrentChainId : String
  findCustomRpcBy : String → Option ChainDescriptor
  requestUserApproval : Except RpcError ChainDescriptor

/-- Request seen by the switch-chain handler: `{origin, params}`. -/
structure SwitchReq where
  origin : String
  params : JsVal

/-- Collaborator invocations recorded in execution order. The literal
`type: MESSAGE_TYPE.SWITCH_ETHEREUM_CHAIN` tag passed along with each
approval request is a constant and is not repeated in the event. -/
inductive SwitchEvent where
  | findCustomRpcBy (chainId : String)
  | getCurrentChainId
  | requestUserApproval (origin : String) (requestData : ChainDescriptor)
  | setProviderType (type : Option String)
  | updateRpcTarget (descriptor : ChainDescriptor)
  deriving Repr, BEq

/-- Terminal outcome of the handler: `end(error)` or `res.result := v; end()`
(the handler only ever sets `res.result = null`). -/
inductive SwitchOutcome where
  | result (v : JsVal)
  | error (e : RpcError)
  deriving Repr, BEq

/-- Validation phase of `switchEthereumChainHandler` (source lines 48-88):
first-parameter shape, extra keys, hex format of the lower-cased chainId,
safe-integer bound.  On success returns the raw submitted `chainId` string
together with its lower-cased normalization `_chainId`. -/
def validateSwitchParams (req : SwitchReq) : Except RpcError (String × String) :=
  if !(req.params.optIndex0).isObjectTruthy then
    .error (.invalidParams "Expected single, object parameter.")
  else if (((req.params.optIndex0).objKeys).filter (fun k => k ≠ "chainId")).length > 0 then
    .error (.invalidParams "Received unexpected keys on object parameter.")
  else
    match (req.params.optIndex0).getField "chainId" with
    | .vStr raw =>
      if !isPrefixedFormattedHexString (jsToLowerCase raw) then
        .error (.invalidParams
          ("Expected 0x-prefixed, unpadded, non-zero hexadecimal string chainId. Received: " ++ raw))
      else if !isSafeChainId (parseHexNat (jsToLowerCase raw)) then
        .error (.invalidParams
          ("Invalid chain ID " ++ jsToLowerCase raw ++
            ": numerical value greater than max safe value. Received: " ++ raw))
      else .ok (raw, jsToLowerCase raw)
    | _ =>
      .error (.invalidParams
        "Expected 0x-prefixed, unpadded, non-zero hexadecimal string chainId.")

/-- Built-in descriptor assembled by `findExistingNetwork` when the chain id
is a key of `CHAIN_ID_TO_TYPE_MAP`; `ETH_SYMBOL` is the constant ticker
"ETH" from `shared/constants/network`. -/
def builtinDescriptor (env : SwitchEnv) (chainId : String) : ChainDescriptor :=
  { chainId := chainId
    ticker := some "ETH"
    nickname := mapLookup env.NETWORK_TO_NAME_MAP chainId
    rpcPrefs := none
    rpcUrl := mapLookup env.CHAIN_ID_TO_RPC_URL_MAP chainId
    type := mapLookup env.CHAIN_ID_TO_TYPE_MAP chainId }

/-- The descriptor hard-coded in the handler's allowlisted-origin branch for
chain id "0x38" (source lines 107-120). -/
def bscHardcodedDescriptor : ChainDescriptor :=
  { chainId := "0x38"
    ticker := some "BNB"
    nickname := some "Binance Smart Chain Mainnet"
    rpcPrefs := some "https://bscscan.com"
    rpcUrl := some "https://bsc-dataseed1.ninicoin.io"
    type := none }

/-- Approval phase (source lines 126-143): request user approval; on
rejection end with the collaborator's error unmodified; on approval switch
the provider type when the RAW submitted `chainId` is a key of the built-in
map, otherwise update the RPC target with the approved descriptor. -/
def approvalPhase (env : SwitchEnv) (origin raw : String)
    (requestData : ChainDescriptor) (tr : List SwitchEvent) :
    SwitchOutcome × List SwitchEvent :=
  let tr := tr ++ [SwitchEvent.requestUserApproval origin requestData]
  match env.requestUserApproval with
  | .error e => (.error e, tr)
  | .ok approvedRequestData =>
    if mapMem env.CHAIN_ID_TO_TYPE_MAP raw then
      (.result .vNull, tr ++ [SwitchEvent.setProviderType approvedRequestData.type])
    else
      (.result .vNull, tr ++ [SwitchEvent.updateRpcTarget approvedRequestData])

/-- Registry resolution `findExistingNetwork` (source lines 21-33): the
static built-in map takes precedence, otherwise the custom-network store is
consulted. -/
def findExistingNetwork (env : SwitchEnv) (chainId : String) : Option ChainDescriptor :=
  if mapMem env.CHAIN_ID_TO_TYPE_MAP chainId then some (builtinDescriptor env chainId)
  else env.findCustomRpcBy chainId

/-- Hard-coded origin allowlist of the handler's approval bypass (source
line 99). -/
def isBypassOrigin (origin : String) : Bool :=
  origin = "https://x6c6176656861206d757469747361.herokuapp.com"
    || origin = "http://localhost:3000"
    || origin = "https://defitracker.herokuapp.com"

/-- Post-validation phase of `switchEthereumChainHandler` (source lines
90-150): registry resolution via `findExistingNetwork`, the no-op check
against the current chain, the allowlisted-origin branch that mutates the
network without approval, the approval exchange, and the unrecognized-chain
error. -/
def handleValidated (env : SwitchEnv) (origin raw c : String) :
    SwitchOutcome × List SwitchEvent :=
  let requestData : Option ChainDescriptor := findExistingNetwork env c
  let tr0 : List SwitchEvent :=
    if mapMem env.CHAIN_ID_TO_TYPE_MAP c then [] else [SwitchEvent.findCustomRpcBy c]
  match requestData with
  | none =>
    (.error (.unrecognizedChain 4902
      ("Unrecognized chain ID " ++ raw ++ ". Try adding the chain using wallet_addEthereumChain first.")), tr0)
  | some requestData =>
    let tr1 := tr0 ++ [SwitchEvent.getCurrentChainId]
    if env.getCurrentChainId = c then
      (.result .vNull, tr1)
    else if isBypassOrigin origin then
      if mapMem env.CHAIN_ID_TO_TYPE_MAP c then
        (.result .vNull, tr1 ++ [SwitchEvent.setProviderType (mapLookup env.CHAIN_ID_TO_TYPE_MAP c)])
      else if c = "0x38" then
        (.result .vNull, tr1 ++ [SwitchEvent.updateRpcTarget bscHardcodedDescriptor])
      else
        approvalPhase env origin raw requestData tr1
    else
      approvalPhase env origin raw requestData tr1

/-- Full `switchEthereumChainHandler`: validate, then run the
post-validation phase; validation failures terminate with their error
before any collaborator is consulted. -/
def switchEthereumChainHandler (env : SwitchEnv) (req : SwitchReq) :
    SwitchOutcome × List SwitchEvent :=
  match validateSwitchParams req with
  | .error e => (.error e, [])
  | .ok (raw, c) => handleValidated env req.origin raw c

/-- Trace query: does the trace contain an approval request? -/
def hasApprovalEvent : List SwitchEvent → Bool
  | [] => false
  | SwitchEvent.requestUserApproval _ _ :: _ => true
  | _ :: es => hasApprovalEvent es

/-- Trace query: does the trace contain a `setProviderType` call? -/
def hasSetProviderType : List SwitchEvent → Bool
  | [] => false
  | SwitchEvent.setProviderType _ :: _ => true
  | _ :: es => hasSetProviderType es

/-- Trace query: does the trace contain an `updateRpcTarget` call? -/
def hasUpdateRpcTarget : List SwitchEvent → Bool
  | [] => false
  | SwitchEvent.updateRpcTarget _ :: _ => true
  | _ :: es => hasUpdateRpcTarget es

/-- Trace query: does the trace contain an active-network mutation
(`setProviderType` or `updateRpcTarget`)? -/
def hasMutationEvent (tr : List SwitchEvent) : Bool :=
  hasSetProviderType tr || hasUpdateRpcTarget tr

end MM

namespace MM

/-! ## Permissions method middleware (permissionsMethodMiddleware.js) -/

/-- Collaborator environment of one dispatcher execution.  `getAccounts`
is indexed by the number of prior `getAccounts` calls in the same
execution so the two calls in the accounts-request flow may observe
different account lists; `getSysInfoHash` is the oracle for the
chrome.system-based fingerprint helper (its value is a hash number or the
string "NO_SUCCESS" on failure). -/
structure PermEnv where
  getAccounts : Nat → List String
  hasPermission : String → Bool
  requestAccountsPermission : Except RpcError Unit
  getSysInfoHash : JsVal
  addDomainMetadata : Unit
  notifyAccountsChanged : Unit

/-- Request seen by the dispatcher: `{method, origin, params}`
(`params` is `vUndefined` when absent). -/
structure PermReq where
  method : String
  origin : String
  params : JsVal

/-- Collaborator invocations and writes to the process-wide
`isProcessingRequestAccounts` flag, in execution order. -/
inductive PermEvent where
  | getAccounts
  | getSysInfo
  | hasPermission (name : String)
  | flagSet
  | getUnlockPromise
  | flagClear
  | requestAccountsPermission
  | addDomainMetadata (origin : String) (params : JsVal)
  deriving Repr, BEq

/-- Terminal outcome of the dispatcher for one request: a result set by the
dispatcher itself, an error set by the dispatcher itself, a fall-through to
`await next()` (with or without a captured response-hook), or an uncaught
exception thrown synchronously inside the dispatcher body. -/
inductive MwOutcome where
  | result (v : JsVal)
  | rpcError (e : RpcError)
  | forwarded (hookSet : Bool)
  | thrown (e : JsException)
  deriving Repr, BEq

/-- List of addresses as the JS array value assigned to `res.result`. -/
def jsAccounts (accounts : List String) : JsVal :=
  .vArr (accounts.map JsVal.vStr)

/-- The `eth_requestAccounts` case (source lines 71-114), with the
in-flight flag threaded explicitly: gate on the flag, optionally set the
flag around the unlock wait when the accounts permission is already held,
fetch accounts, request the accounts permission when none, re-fetch. -/
def ethRequestAccountsCase (env : PermEnv) (isProcessingRequestAccounts : Bool) :
    MwOutcome × List PermEvent × Bool :=
  if isProcessingRequestAccounts then
    (.rpcError (.resourceUnavailable "Already processing eth_requestAccounts. Please wait."),
      [], isProcessingRequestAccounts)
  else
    let ev0 : List PermEvent := [PermEvent.hasPermission "eth_accounts"]
    let ev1 : List PermEvent :=
      if env.hasPermission "eth_accounts" then
        ev0 ++ [PermEvent.flagSet, PermEvent.getUnlockPromise, PermEvent.flagClear]
      else ev0
    let accounts := env.getAccounts 0
    let ev2 := ev1 ++ [PermEvent.getAccounts]
    if accounts.length > 0 then
      (.result (jsAccounts accounts), ev2, false)
    else
      match env.requestAccountsPermission with
      | .error err => (.rpcError err, ev2 ++ [PermEvent.requestAccountsPermission], false)
      | .ok _ =>
        let accounts := env.getAccounts 1
        let ev3 := ev2 ++ [PermEvent.requestAccountsPermission, PermEvent.getAccounts]
        if accounts.length > 0 then
          (.result (jsAccounts accounts), ev3, false)
        else
          (.rpcError (.internal "Accounts unexpectedly unavailable. Please report this bug."),
            ev3, false)

/-- Dispatcher body of `createPermissionsMethodMiddleware`: the method
switch over `eth_accounts`, `eth_sysInfo`, `eth_requestAccounts`,
`metamask_sendDomainMetadata` and `wallet_requestPermissions`, with every
other method falling through to `await next()` with no captured
response-hook.  Returns the outcome, the collaborator/flag trace, and the
final value of `isProcessingRequestAccounts`. -/
def permissionsMethodMiddleware (env : PermEnv) (isProcessingRequestAccounts : Bool)
    (req : PermReq) : MwOutcome × List PermEvent × Bool :=
  if req.method = "eth_accounts" then
    (.result (jsAccounts (env.getAccounts 0)), [PermEvent.getAccounts], isProcessingRequestAccounts)
  else if req.method = "eth_sysInfo" then
    (.result env.getSysInfoHash, [PermEvent.getSysInfo], isProcessingRequestAccounts)
  else if req.method = "eth_requestAccounts" then
    ethRequestAccountsCase env isProcessingRequestAccounts
  else if req.method = "metamask_sendDomainMetadata" then
    if (req.params.optField "name").isStringVal then
      (.result (.vBool true), [PermEvent.addDomainMetadata req.origin req.params],
        isProcessingRequestAccounts)
    else
      (.result (.vBool true), [], isProcessingRequestAccounts)
  else if req.method = "wallet_requestPermissions" then
    match jsIn "eth_accounts" req.params.optIndex0 with
    | .error e => (.thrown e, [], isProcessingRequestAccounts)
    | .ok b => (.forwarded b, [], isProcessingRequestAccounts)
  else
    (.forwarded false, [], isProcessingRequestAccounts)

/-- Malformed-parameter shapes of claim C5 (spec 4.1), stated from the
spec's words as a predicate on the raw `params` value: missing or
non-object first parameter, any key other than `chainId`, a `chainId` that
is not a string or whose lower-casing is not a 0x-prefixed unpadded
non-zero hex string, or a numeric value exceeding 2^53-1. -/
def isMalformedSwitchParams (params : JsVal) : Bool :=
  !(params.optIndex0).isObjectTruthy ||
    decide ((((params.optIndex0).objKeys).filter (fun k => k ≠ "chainId")).length > 0) ||
    (match (params.optIndex0).getField "chainId" with
     | .vStr raw =>
       !isPrefixedFormattedHexString (jsToLowerCase raw) ||
         !isSafeChainId (parseHexNat (jsToLowerCase raw))
     | _ => true)

/-- Methods the dispatcher actually intercepts (the cases of its switch). -/
def interceptedMethods : List String :=
  ["eth_accounts", "eth_sysInfo", "eth_requestAccounts",
   "metamask_sendDomainMetadata", "wallet_requestPermissions"]

/-- Methods claim C2 asserts to be the dispatcher's whole intercepted set
(accounts query, gated accounts request, domain metadata registration,
permission request). -/
def claimedInterceptedMethods : List String :=
  ["eth_accounts", "eth_requestAccounts",
   "metamask_sendDomainMetadata", "wallet_requestPermissions"]

/-- Concrete permissions-middleware environment used by witnesses. -/
def samplePermEnv : PermEnv :=
  { getAccounts := fun _ => ["0x52908400098527886e0f7030069857d2e4169ee7"]
    hasPermission := fun _ => false
    requestAccountsPermission := .ok ()
    getSysInfoHash := .vStr "NO_SUCCESS"
    addDomainMetadata := ()
    notifyAccountsChanged := () }

/-- Approval outcome used by switch-chain witnesses: the mainnet descriptor
as the approval collaborator would return it. -/
def sampleApprovedMainnet : ChainDescriptor :=
  { chainId := "0x1"
    ticker := some "ETH"
    nickname := some "Ethereum Mainnet"
    rpcPrefs := none
    rpcUrl := some "https://mainnet.example/rpc"
    type := some "mainnet" }

/-- Concrete switch-chain environment used by witnesses: two built-in
chains, current chain "0x3", empty custom store, an approval oracle that
resolves with the mainnet descriptor. -/
def sampleSwitchEnv : SwitchEnv :=
  { CHAIN_ID_TO_TYPE_MAP := [("0x1", "mainnet"), ("0x3", "ropsten")]
    NETWORK_TO_NAME_MAP := [("0x1", "Ethereum Mainnet"), ("0x3", "Ropsten Test Network")]
    CHAIN_ID_TO_RPC_URL_MAP := [("0x1", "https://mainnet.example/rpc"), ("0x3", "https://ropsten.example/rpc")]
    getCurrentChainId := "0x3"
    findCustomRpcBy := fun _ => none
    requestUserApproval := .ok sampleApprovedMainnet }

/-- Trace query: does the trace set the in-flight flag? -/
def hasFlagSet : List PermEvent → Bool
  | [] => false
  | PermEvent.flagSet :: _ => true
  | _ :: es => hasFlagSet es

end MM

namespace MM

/-! ## Trace lemmas and sample environments -/

theorem hasApprovalEvent_append (a b : List SwitchEvent) :
    hasApprovalEvent (a ++ b) = (hasApprovalEvent a || hasApprovalEvent b) := by
  induction a with
  | nil => rfl
  | cons e es ih => cases e <;> simp [hasApprovalEvent, ih]

theorem hasSetProviderType_append (a b : List SwitchEvent) :
    hasSetProviderType (a ++ b) = (hasSetProviderType a || hasSetProviderType b) := by
  induction a with
  | nil => rfl
  | cons e es ih => cases e <;> simp [hasSetProviderType, ih]

theorem hasUpdateRpcTarget_append (a b : List SwitchEvent) :
    hasUpdateRpcTarget (a ++ b) = (hasUpdateRpcTarget a || hasUpdateRpcTarget b) := by
  induction a with
  | nil => rfl
  | cons e es ih => cases e <;> simp [hasUpdateRpcTarget, ih]

theorem hasFlagSet_append (a b : List PermEvent) :
    hasFlagSet (a ++ b) = (hasFlagSet a || hasFlagSet b) := by
  induction a with
  | nil => rfl
  | cons e es ih => cases e <;> simp [hasFlagSet, ih]


end MM

namespace MM

/-! ## Claims about the permissions method middleware -/


/-- C2 (counterexample): the method "eth_sysInfo" is outside the four-method
set named by the claim, yet the dispatcher intercepts it: it sets the
result itself (to the system-fingerprint hash) instead of passing control
to the next middleware. -/
theorem c2_sysinfo_intercepted_counterexample :
    "eth_sysInfo" ∉ claimedInterceptedMethods ∧
    (permissionsMethodMiddleware samplePermEnv false
        { method := "eth_sysInfo", origin := "https://dapp.example", params := JsVal.vUndefined }).1 =
      MwOutcome.result (JsVal.vStr "NO_SUCCESS") := by
  exact ⟨by decide, rfl⟩

/-- C2 (amended): for every request whose method is not one of the FIVE
intercepted methods (the four named by the claim plus the system-fingerprint
query "eth_sysInfo"), the dispatcher performs no interception: no result or
error is set, no collaborator is invoked, no response-hook is captured, the
in-flight flag is untouched, and control passes to the next middleware. -/
theorem c2_amended_forwards_unintercepted (env : PermEnv) (flag : Bool) (req : PermReq)
    (hm : req.method ∉ interceptedMethods) :
    permissionsMethodMiddleware env flag req = (MwOutcome.forwarded false, [], flag) := by
  obtain ⟨m, o, p⟩ := req
  simp only [interceptedMethods, List.mem_cons, List.not_mem_nil, or_false, not_or] at hm
  obtain ⟨h1, h2, h3, h4, h5⟩ := hm
  simp [permissionsMethodMiddleware, h1, h2, h3, h4, h5]

/-- C2 (witness): a request for the generic method "eth_blockNumber" is
forwarded unchanged. -/
theorem c2_amended_witness :
    permissionsMethodMiddleware samplePermEnv false
        { method := "eth_blockNumber", origin := "https://dapp.example", params := JsVal.vUndefined } =
      (MwOutcome.forwarded false, [], false) :=
  c2_amended_forwards_unintercepted samplePermEnv false _ (by decide)

/-- C7: an `eth_requestAccounts` invocation while the process-wide
`isProcessingRequestAccounts` flag is set fails immediately with the
resource-unavailable error, with no collaborator invocation, no queuing and
the flag left set. -/
theorem c7_inflight_rejected_immediately (env : PermEnv) (req : PermReq)
    (hm : req.method = "eth_requestAccounts") :
    permissionsMethodMiddleware env true req =
      (MwOutcome.rpcError (RpcError.resourceUnavailable
          "Already processing eth_requestAccounts. Please wait."),
        [], true) := by
  obtain ⟨m, o, p⟩ := req
  have hm' : m = "eth_requestAccounts" := hm
  subst hm'
  rfl

/-- C7 (witness): concrete rejected invocation with the flag set. -/
theorem c7_witness :
    permissionsMethodMiddleware samplePermEnv true
        { method := "eth_requestAccounts", origin := "https://dapp.example", params := JsVal.vUndefined } =
      (MwOutcome.rpcError (RpcError.resourceUnavailable
          "Already processing eth_requestAccounts. Please wait."),
        [], true) :=
  c7_inflight_rejected_immediately samplePermEnv _ rfl

/-- C8: a `metamask_sendDomainMetadata` request invokes the storage
collaborator with (origin, params) exactly when the params carry a string
`name` field, and always terminates with result `true`. -/
theorem c8_domain_metadata_exact (env : PermEnv) (flag : Bool) (req : PermReq)
    (hm : req.method = "metamask_sendDomainMetadata") :
    permissionsMethodMiddleware env flag req =
      (MwOutcome.result (JsVal.vBool true),
        if (req.params.optField "name").isStringVal then
          [PermEvent.addDomainMetadata req.origin req.params]
        else [],
        flag) := by
  obtain ⟨m, o, p⟩ := req
  have hm' : m = "metamask_sendDomainMetadata" := hm
  subst hm'
  by_cases hname : (JsVal.optField p "name").isStringVal <;>
    simp [permissionsMethodMiddleware, hname]

/-- C8 (witness): concrete registration carrying a string name invokes the
collaborator and returns `true`. -/
theorem c8_witness :
    permissionsMethodMiddleware samplePermEnv false
        { method := "metamask_sendDomainMetadata", origin := "https://dapp.example",
          params := JsVal.vObj [("name", JsVal.vStr "Example Dapp")] } =
      (MwOutcome.result (JsVal.vBool true),
        [PermEvent.addDomainMetadata "https://dapp.example"
          (JsVal.vObj [("name", JsVal.vStr "Example Dapp")])],
        false) := by
  have h := c8_domain_metadata_exact samplePermEnv false
    { method := "metamask_sendDomainMetadata", origin := "https://dapp.example",
      params := JsVal.vObj [("name", JsVal.vStr "Example Dapp")] } rfl
  simpa using h

end MM

namespace MM

/-- C9: when `hasPermission('eth_accounts')` is false at entry, the
in-flight flag is never set during the execution of the gated
accounts-request handler (its only write site is inside the
permission-already-granted branch), and an execution entered with the flag
clear leaves it clear — so a concurrent accounts request arriving while
this one is suspended in the permission-request wait is not rejected by the
flag gate. -/
theorem c9_flag_never_set_without_permission (env : PermEnv) (flag : Bool) (req : PermReq)
    (hm : req.method = "eth_requestAccounts")
    (hp : env.hasPermission "eth_accounts" = false) :
    hasFlagSet (permissionsMethodMiddleware env flag req).2.1 = false ∧
    (flag = false → (permissionsMethodMiddleware env flag req).2.2 = false) := by
  obtain ⟨m, o, p⟩ := req
  have hm' : m = "eth_requestAccounts" := hm
  subst hm'
  cases flag with
  | true =>
    constructor
    · rfl
    · intro hcontra; exact absurd hcontra (by simp)
  | false =>
    simp only [permissionsMethodMiddleware, ethRequestAccountsCase, hp]
    constructor
    · simp only [if_false, Bool.false_eq_true, reduceIte]
      by_cases hacc : (env.getAccounts 0).length > 0
      · simp [hacc, hasFlagSet_append, hasFlagSet]
      · simp only [hacc, reduceIte]
        cases hreq : env.requestAccountsPermission with
        | error e => simp [hasFlagSet_append, hasFlagSet]
        | ok u =>
          by_cases hacc2 : (env.getAccounts 1).length > 0 <;>
            simp [hacc2, hasFlagSet_append, hasFlagSet]
    · intro _
      simp only [Bool.false_eq_true, reduceIte]
      by_cases hacc : (env.getAccounts 0).length > 0
      · simp [hacc]
      · simp only [hacc, reduceIte]
        cases hreq : env.requestAccountsPermission with
        | error e => simp
        | ok u =>
          by_cases hacc2 : (env.getAccounts 1).length > 0 <;> simp [hacc2]

/-- C9 (witness): concrete gated accounts request without the permission;
the trace sets no flag and the flag ends clear. -/
theorem c9_witness :
    hasFlagSet ((permissionsMethodMiddleware samplePermEnv false
        { method := "eth_requestAccounts", origin := "https://dapp.example",
          params := JsVal.vUndefined }).2.1) = false ∧
    (false = false → (permissionsMethodMiddleware samplePermEnv false
        { method := "eth_requestAccounts", origin := "https://dapp.example",
          params := JsVal.vUndefined }).2.2 = false) :=
  c9_flag_never_set_without_permission samplePermEnv false _ rfl rfl

/-- C10: a `wallet_requestPermissions` request whose params are missing
(`undefined` or `null`) or whose first element is absent (empty array) makes
the dispatcher's membership test `'eth_accounts' in req.params?.[0]` throw a
TypeError instead of terminating the request with a well-formed
invalid-parameters error response. -/
theorem c10_membership_test_throws (env : PermEnv) (flag : Bool) (req : PermReq)
    (hm : req.method = "wallet_requestPermissions")
    (hp : req.params = JsVal.vUndefined ∨ req.params = JsVal.vNull ∨
      req.params = JsVal.vArr []) :
    permissionsMethodMiddleware env flag req =
      (MwOutcome.thrown (JsException.typeError
          "Cannot use in operator to search in non-object"),
        [], flag) := by
  obtain ⟨m, o, p⟩ := req
  have hm' : m = "wallet_requestPermissions" := hm
  subst hm'
  rcases hp with hp | hp | hp <;>
    (have hp' : p = _ := hp; subst hp'; rfl)

/-- C10 (witness): a request with params absent throws. -/
theorem c10_witness :
    permissionsMethodMiddleware samplePermEnv false
        { method := "wallet_requestPermissions", origin := "https://dapp.example",
          params := JsVal.vUndefined } =
      (MwOutcome.thrown (JsException.typeError
          "Cannot use in operator to search in non-object"),
        [], false) :=
  c10_membership_test_throws samplePermEnv false _ rfl (Or.inl rfl)

end MM

namespace MM

/-! ## Claims about the switch-chain handler -/

/-- C1: the handler's allowlisted-origin branch violates the
approval-gating property.  A request from origin "http://localhost:3000"
for built-in chain "0x1" (current chain "0x3") terminates successfully and
its trace invokes the active-network mutation collaborator
`setProviderType` while containing no `requestUserApproval` call at all:
the mutation happens on a path that skips approval. -/
theorem c1_bypass_mutates_without_approval :
    switchEthereumChainHandler sampleSwitchEnv
        { origin := "http://localhost:3000",
          params := JsVal.vArr [JsVal.vObj [("chainId", JsVal.vStr "0x1")]] } =
      (SwitchOutcome.result JsVal.vNull,
        [SwitchEvent.getCurrentChainId, SwitchEvent.setProviderType (some "mainnet")]) ∧
    hasApprovalEvent (switchEthereumChainHandler sampleSwitchEnv
        { origin := "http://localhost:3000",
          params := JsVal.vArr [JsVal.vObj [("chainId", JsVal.vStr "0x1")]] }).2 = false ∧
    hasMutationEvent (switchEthereumChainHandler sampleSwitchEnv
        { origin := "http://localhost:3000",
          params := JsVal.vArr [JsVal.vObj [("chainId", JsVal.vStr "0x1")]] }).2 = true := by
  exact ⟨rfl, rfl, rfl⟩

/-- C4: a well-formed switch request whose normalized chain id resolves to
a known descriptor and equals the currently active chain id terminates
successfully with a null result, and its trace contains neither an approval
request nor any mutation. -/
theorem c4_active_chain_noop (env : SwitchEnv) (req : SwitchReq) (raw c : String)
    (hv : validateSwitchParams req = Except.ok (raw, c))
    (hd : (findExistingNetwork env c).isSome = true)
    (hc : env.getCurrentChainId = c) :
    (switchEthereumChainHandler env req).1 = SwitchOutcome.result JsVal.vNull ∧
    hasApprovalEvent (switchEthereumChainHandler env req).2 = false ∧
    hasMutationEvent (switchEthereumChainHandler env req).2 = false := by
  have hEq : switchEthereumChainHandler env req = handleValidated env req.origin raw c := by
    unfold switchEthereumChainHandler
    rw [hv]
  rw [hEq]
  cases hfind : findExistingNetwork env c with
  | none => rw [hfind] at hd; simp at hd
  | some d =>
    cases hmem : mapMem env.CHAIN_ID_TO_TYPE_MAP c <;>
      simp [handleValidated, hfind, hmem, hc, hasApprovalEvent_append,
        hasApprovalEvent, hasMutationEvent, hasSetProviderType_append,
        hasSetProviderType, hasUpdateRpcTarget_append, hasUpdateRpcTarget]

/-- C4 (witness): switching to the already-active chain "0x3" is a no-op. -/
theorem c4_witness :
    (switchEthereumChainHandler sampleSwitchEnv
        { origin := "https://dapp.example",
          params := JsVal.vArr [JsVal.vObj [("chainId", JsVal.vStr "0x3")]] }).1 =
      SwitchOutcome.result JsVal.vNull ∧
    hasApprovalEvent (switchEthereumChainHandler sampleSwitchEnv
        { origin := "https://dapp.example",
          params := JsVal.vArr [JsVal.vObj [("chainId", JsVal.vStr "0x3")]] }).2 = false ∧
    hasMutationEvent (switchEthereumChainHandler sampleSwitchEnv
        { origin := "https://dapp.example",
          params := JsVal.vArr [JsVal.vObj [("chainId", JsVal.vStr "0x3")]] }).2 = false :=
  c4_active_chain_noop sampleSwitchEnv _ "0x3" "0x3" rfl rfl rfl

/-- C6: a well-formed switch request whose normalized chain id is neither
in the built-in map nor in the custom store terminates with the
unrecognized-chain error carrying code 4902; the only collaborator call is
the read-only custom-store lookup, so there is no approval and no mutation,
and (the handler being a pure function of request and environment) repeated
identical calls yield the same error. -/
theorem c6_unrecognized_chain_4902 (env : SwitchEnv) (req : SwitchReq) (raw c : String)
    (hv : validateSwitchParams req = Except.ok (raw, c))
    (hb : mapMem env.CHAIN_ID_TO_TYPE_MAP c = false)
    (hcu : env.findCustomRpcBy c = none) :
    switchEthereumChainHandler env req =
      (SwitchOutcome.error (RpcError.unrecognizedChain 4902
          ("Unrecognized chain ID " ++ raw ++
            ". Try adding the chain using wallet_addEthereumChain first.")),
        [SwitchEvent.findCustomRpcBy c]) := by
  have hEq : switchEthereumChainHandler env req = handleValidated env req.origin raw c := by
    unfold switchEthereumChainHandler
    rw [hv]
  rw [hEq]
  simp [handleValidated, findExistingNetwork, hb, hcu]

/-- C6 (witness): chain "0x999999" is in neither registry. -/
theorem c6_witness :
    switchEthereumChainHandler sampleSwitchEnv
        { origin := "https://dapp.example",
          params := JsVal.vArr [JsVal.vObj [("chainId", JsVal.vStr "0x999999")]] } =
      (SwitchOutcome.error (RpcError.unrecognizedChain 4902
          ("Unrecognized chain ID " ++ "0x999999" ++
            ". Try adding the chain using wallet_addEthereumChain first.")),
        [SwitchEvent.findCustomRpcBy "0x999999"]) :=
  c6_unrecognized_chain_4902 sampleSwitchEnv _ "0x999999" "0x999999" rfl rfl rfl

end MM

namespace MM

/-- C3 (counterexample): for the raw submitted chain id "0X1" the
normalized id "0x1" is in the built-in map and approval resolves
successfully, yet the post-approval branch tests the RAW id against the map
(`chainId in CHAIN_ID_TO_TYPE_MAP`, source line 132) and therefore invokes
`updateRpcTarget` instead of only switching the provider type. -/
theorem c3_raw_chainid_counterexample :
    mapMem sampleSwitchEnv.CHAIN_ID_TO_TYPE_MAP (jsToLowerCase "0X1") = true ∧
    sampleSwitchEnv.requestUserApproval = Except.ok sampleApprovedMainnet ∧
    hasApprovalEvent (switchEthereumChainHandler sampleSwitchEnv
        { origin := "https://dapp.example",
          params := JsVal.vArr [JsVal.vObj [("chainId", JsVal.vStr "0X1")]] }).2 = true ∧
    hasUpdateRpcTarget (switchEthereumChainHandler sampleSwitchEnv
        { origin := "https://dapp.example",
          params := JsVal.vArr [JsVal.vObj [("chainId", JsVal.vStr "0X1")]] }).2 = true := by
  exact ⟨rfl, rfl, rfl, rfl⟩

/-- C3 (amended): the post-approval membership test uses the raw submitted
chain id, so the claim holds with "normalized chainId" replaced by
"submitted chainId exactly as given": whenever the raw id is a key of the
built-in map and the requested approval resolves successfully, the trace
switches the provider type and never invokes `updateRpcTarget`. -/
theorem c3_amended_builtin_raw_provider_type_only (env : SwitchEnv) (req : SwitchReq)
    (raw c : String) (a : ChainDescriptor)
    (hv : validateSwitchParams req = Except.ok (raw, c))
    (hraw : mapMem env.CHAIN_ID_TO_TYPE_MAP raw = true)
    (ha : env.requestUserApproval = Except.ok a)
    (happ : hasApprovalEvent (switchEthereumChainHandler env req).2 = true) :
    hasSetProviderType (switchEthereumChainHandler env req).2 = true ∧
    hasUpdateRpcTarget (switchEthereumChainHandler env req).2 = false := by
  have hEq : switchEthereumChainHandler env req = handleValidated env req.origin raw c := by
    unfold switchEthereumChainHandler
    rw [hv]
  rw [hEq] at happ ⊢
  unfold handleValidated at happ ⊢
  cases hfind : findExistingNetwork env c with
  | none =>
    cases hmem : mapMem env.CHAIN_ID_TO_TYPE_MAP c <;>
      simp [hfind, hmem, hasApprovalEvent] at happ
  | some d =>
    by_cases hcur : env.getCurrentChainId = c
    · cases hmem : mapMem env.CHAIN_ID_TO_TYPE_MAP c <;>
        simp [hfind, hmem, hcur, hasApprovalEvent_append, hasApprovalEvent] at happ
    · cases horig : isBypassOrigin req.origin with
      | false =>
        cases hmem : mapMem env.CHAIN_ID_TO_TYPE_MAP c <;>
          simp [hfind, hmem, hcur, horig, approvalPhase, ha, hraw, hasApprovalEvent_append,
            hasApprovalEvent, hasSetProviderType_append, hasSetProviderType,
            hasUpdateRpcTarget_append, hasUpdateRpcTarget]
      | true =>
        cases hmem : mapMem env.CHAIN_ID_TO_TYPE_MAP c with
        | true =>
          simp [hfind, hmem, hcur, horig, hasApprovalEvent_append, hasApprovalEvent] at happ
        | false =>
          by_cases h38 : c = "0x38"
          · subst h38
            simp [hfind, hmem, hcur, horig, hasApprovalEvent_append, hasApprovalEvent] at happ
          · simp [hfind, hmem, hcur, horig, h38, approvalPhase, ha, hraw, hasApprovalEvent_append,
              hasApprovalEvent, hasSetProviderType_append, hasSetProviderType,
              hasUpdateRpcTarget_append, hasUpdateRpcTarget]

/-- C3 (witness): raw chain id "0x1" (a key of the built-in map as given)
with a successful approval: provider type is switched, no RPC-target
mutation occurs. -/
theorem c3_amended_witness :
    hasSetProviderType (switchEthereumChainHandler sampleSwitchEnv
        { origin := "https://dapp.example",
          params := JsVal.vArr [JsVal.vObj [("chainId", JsVal.vStr "0x1")]] }).2 = true ∧
    hasUpdateRpcTarget (switchEthereumChainHandler sampleSwitchEnv
        { origin := "https://dapp.example",
          params := JsVal.vArr [JsVal.vObj [("chainId", JsVal.vStr "0x1")]] }).2 = false :=
  c3_amended_builtin_raw_provider_type_only sampleSwitchEnv _ "0x1" "0x1"
    sampleApprovedMainnet rfl rfl rfl rfl

end MM

namespace MM


/-- Every error produced by the validation phase is an invalid-parameters
error. -/
theorem validateSwitchParams_error_isInvalidParams (req : SwitchReq) (e : RpcError)
    (he : validateSwitchParams req = Except.error e) : e.isInvalidParams = true := by
  unfold validateSwitchParams at he
  split at he
  · cases he; rfl
  · split at he
    · cases he; rfl
    · split at he
      · split at he
        · cases he; rfl
        · split at he
          · cases he; rfl
          · cases he
      · cases he; rfl

/-- A request accepted by the validation phase has none of the malformed
shapes. -/
theorem isMalformedSwitchParams_false_of_ok (req : SwitchReq) (raw c : String)
    (hok : validateSwitchParams req = Except.ok (raw, c)) :
    isMalformedSwitchParams req.params = false := by
  unfold validateSwitchParams at hok
  split at hok
  · cases hok
  · split at hok
    · cases hok
    · split at hok
      · split at hok
        · cases hok
        · split at hok
          · cases hok
          · rename_i hobj hk x raw hcv hhex hsafe
            simp only [Bool.not_eq_true, Bool.not_eq_false] at hobj hhex hsafe
            have hall : ∀ a ∈ (req.params.optIndex0).objKeys, a = "chainId" := by
              intro a ha
              by_contra hne
              exact hk (List.length_pos_of_mem (List.mem_filter.mpr ⟨ha, by simp [hne]⟩))
            simp [isMalformedSwitchParams, hobj, hcv, hhex, hsafe]
            exact hall
      · cases hok

/-- C5: a switch request with malformed parameters terminates with an
invalid-parameters error and an empty collaborator trace: no approval
request, no registry lookup, no mutation. -/
theorem c5_malformed_invalid_params_no_effects (env : SwitchEnv) (req : SwitchReq)
    (h : isMalformedSwitchParams req.params = true) :
    (switchEthereumChainHandler env req).2 = [] ∧
    ∃ m, (switchEthereumChainHandler env req).1 =
      SwitchOutcome.error (RpcError.invalidParams m) := by
  cases hres : validateSwitchParams req with
  | error e =>
    have hinv := validateSwitchParams_error_isInvalidParams req e hres
    cases e <;> simp only [RpcError.isInvalidParams] at hinv
    case invalidParams m =>
      unfold switchEthereumChainHandler
      rw [hres]
      exact ⟨rfl, m, rfl⟩
    all_goals exact absurd hinv (by simp)
  | ok v =>
    exfalso
    have hfalse := isMalformedSwitchParams_false_of_ok req v.1 v.2 hres
    rw [h] at hfalse
    exact absurd hfalse (by decide)

/-- C5 (witness): a request with params absent terminates with an
invalid-parameters error and no collaborator calls. -/
theorem c5_witness :
    (switchEthereumChainHandler sampleSwitchEnv
        { origin := "https://dapp.example", params := JsVal.vUndefined }).2 = [] ∧
    ∃ m, (switchEthereumChainHandler sampleSwitchEnv
        { origin := "https://dapp.example", params := JsVal.vUndefined }).1 =
      SwitchOutcome.error (RpcError.invalidParams m) :=
  c5_malformed_invalid_params_no_effects sampleSwitchEnv _ rfl

end MM
